import Mathlib

/-!
Verification of the MediData backend (src/backend/app): the registry-record
normalizer, the provider-search aggregator, the favorites manager and the
appointment-request lifecycle, shallowly embedded from the Python source.

Modelling conventions:
* A JSON/dict field that may be absent is an `Option`; `none` stands for an
  absent key (and, where the source treats them alike, a JSON null).
* Python string truthiness (`if s:`) is `s ≠ ""`; `d.get(k, "")` is `o.getD ""`.
* The raw registry value `number` is modelled as the string `str(...)` already
  produced by the source, so `str(npi_result.get("number", ""))` is `getD ""`.
* External collaborators (the Supabase store, the registry HTTP call) are
  passed in as explicit outcomes: the store returns the already-filtered rows,
  the registry call returns parsed data or one of the two httpx failure kinds.
-/

namespace MediData

/-- Python `s or d` on strings: `d` when `s` is empty. -/
def orDefault (s d : String) : String := if s = "" then d else s

/-- Python `sep.join([p for p in parts if p])`. -/
def joinTruthy (sep : String) (parts : List String) : String :=
  String.intercalate sep (parts.filter (fun p => p ≠ ""))

/-- Drop leading whitespace characters. -/
def dropLeadingWs : List Char → List Char
  | [] => []
  | c :: cs => if c.isWhitespace then dropLeadingWs cs else c :: cs

/-- Python `s.strip()`: remove whitespace from both ends (implemented by
structural recursion so that concrete inputs evaluate inside the kernel). -/
def pyStrip (s : String) : String :=
  String.mk ((dropLeadingWs ((dropLeadingWs s.data).reverse)).reverse)

/-- Python `s.lower()` restricted to ASCII case mapping. -/
def pyLower (s : String) : String :=
  String.mk (s.data.map Char.toLower)

/-- Python single-character `s.split(sep)` on the character list. -/
def splitOnChar (sep : Char) : List Char → List (List Char)
  | [] => [[]]
  | x :: xs =>
      let rest := splitOnChar sep xs
      if x = sep then [] :: rest
      else
        match rest with
        | h :: t => (x :: h) :: t
        | [] => [[x]]

/-- Python `s.split(sep)` for a one-character separator. -/
def pySplit (sep : Char) (s : String) : List String :=
  (splitOnChar sep s.data).map String.mk

/-- The needle is a prefix of the haystack. -/
def isPrefixChars : List Char → List Char → Bool
  | [], _ => true
  | _ :: _, [] => false
  | p :: ps, c :: cs => p = c && isPrefixChars ps cs

/-- The needle occurs somewhere in the haystack. -/
def containsChars (pat : List Char) : List Char → Bool
  | [] => isPrefixChars pat []
  | c :: cs => isPrefixChars pat (c :: cs) || containsChars pat cs

/-- Python `pat in s` on strings. -/
def pyContains (s pat : String) : Bool :=
  containsChars pat.data s.data

/- ------------------------------------------------------------------ -/
/- Raw registry records (input of transform_npi_result)               -/
/- ------------------------------------------------------------------ -/

/-- The `basic` block of a raw registry record.  `none` fields are absent
keys; the Python `"first_name" in basic_info` presence test is `isSome`. -/
structure Basic where
  enumeration_type : Option String := none
  first_name : Option String := none
  last_name : Option String := none
  middle_name : Option String := none
  credential : Option String := none
  organization_name : Option String := none
deriving DecidableEq, Repr

/-- One entry of the `taxonomies` array.  `primary` models the truthiness of
`t.get("primary", False)`. -/
structure Taxonomy where
  primary : Bool := false
  desc : Option String := none
deriving DecidableEq, Repr

/-- One entry of the `addresses` array. -/
structure Address where
  address_purpose : Option String := none
  city : Option String := none
  state : Option String := none
  postal_code : Option String := none
  telephone_number : Option String := none
deriving DecidableEq, Repr

/-- One entry of the `endpoints` array (string fields hold the `str(...)`
image of the raw values, matching the source's defensive `str(...)` calls). -/
structure Endpoint where
  endpoint_type : Option String := none
  endpoint_description : Option String := none
  endpoint : Option String := none
deriving DecidableEq, Repr

/-- A raw registry record.  `basic = none` models an absent or empty (falsy)
`basic` dict, exactly the records rejected by `if not basic_info`. -/
structure NpiRecord where
  number : Option String := none
  basic : Option Basic := none
  taxonomies : List Taxonomy := []
  addresses : List Address := []
  endpoints : List Endpoint := []
deriving DecidableEq, Repr

/- ------------------------------------------------------------------ -/
/- Normalizer helpers (QueryController.py lines 84-178,               -/
/- main.py lines 579-665)                                             -/
/- ------------------------------------------------------------------ -/

/-- QueryController.py lines 94-99: take `basic_info.get("enumeration_type")`
and, when that is missing or empty, infer NPI-2 when an organization name key
is present and NPI-1 otherwise. -/
def inferEnumType (b : Basic) : String :=
  match b.enumeration_type with
  | some s =>
      if s = "" then (if b.organization_name.isSome then "NPI-2" else "NPI-1") else s
  | none => if b.organization_name.isSome then "NPI-2" else "NPI-1"

/-- Name derivation shared by both transform variants (QueryController.py
lines 101-121, main.py lines 602-619), parameterized by the enumeration type
string each variant computes. -/
def npiNameFrom (b : Basic) (et : String) : String :=
  if et = "NPI-1" ∨ b.first_name.isSome ∨ b.last_name.isSome then
    let base := pyStrip (joinTruthy " "
      [b.first_name.getD "", b.middle_name.getD "", b.last_name.getD ""])
    let credential := b.credential.getD ""
    if credential = "" then base else base ++ ", " ++ credential
  else if et = "NPI-2" ∨ b.organization_name.isSome then
    b.organization_name.getD ""
  else ""

/-- Specialty selection (QueryController.py lines 123-132): the first entry
flagged primary, else the first entry; empty list yields the empty string
(the sentinel is applied at the output dict). -/
def npiSpecialty (ts : List Taxonomy) : String :=
  match ts with
  | [] => ""
  | t0 :: _ =>
      match ts.find? (fun t => t.primary) with
      | some t => t.desc.getD ""
      | none => t0.desc.getD ""

/-- Address selection (QueryController.py lines 137-141): the first address
whose purpose is LOCATION, else the first address. -/
def primaryAddressOf (addrs : List Address) : Option Address :=
  match addrs with
  | [] => none
  | a0 :: _ => some (((addrs.find? (fun a => a.address_purpose.getD "" == "LOCATION"))).getD a0)

/-- Location string (QueryController.py lines 142-146, main.py 642-646). -/
def npiLocation (addrs : List Address) : String :=
  match primaryAddressOf addrs with
  | none => ""
  | some a => pyStrip (joinTruthy ", " [a.city.getD "", a.state.getD "", a.postal_code.getD ""])

/-- Phone extraction (QueryController.py line 147), controller variant only. -/
def npiPhone (addrs : List Address) : String :=
  match primaryAddressOf addrs with
  | none => ""
  | some a => a.telephone_number.getD ""

/-- Python `"email" in s.lower()`. -/
def containsEmailWord (s : String) : Bool :=
  pyContains (pyLower s) "email"

/-- QueryController.py lines 152-158: an endpoint whose type or description
mentions email. -/
def isEmailEndpoint (e : Endpoint) : Bool :=
  containsEmailWord (e.endpoint_type.getD "") || containsEmailWord (e.endpoint_description.getD "")

/-- Email extraction (QueryController.py lines 149-162), controller variant
only. -/
def npiEmail (es : List Endpoint) : String :=
  match es.find? isEmailEndpoint with
  | some e => e.endpoint.getD ""
  | none => ""

/- ------------------------------------------------------------------ -/
/- The two transform variants                                         -/
/- ------------------------------------------------------------------ -/

/-- Output shape of the controller transform (QueryController.py lines
164-175). -/
structure ProviderQC where
  id : String
  name : String
  specialty : String
  location : String
  phone : String
  email : String
  rating : Nat
  insurance : List String
  npi_number : String
  enumeration_type : String
deriving DecidableEq, Repr

/-- Output shape of the module-level transform in main.py (lines 651-660):
no phone and no email keys. -/
structure ProviderMain where
  id : String
  name : String
  specialty : String
  location : String
  rating : Nat
  insurance : List String
  npi_number : String
  enumeration_type : String
deriving DecidableEq, Repr

/-- transform_npi_result, QueryController.py lines 84-178 (the superseding
controller version). -/
def transform_npi_result (r : NpiRecord) : Option ProviderQC :=
  let npi_number := r.number.getD ""
  if npi_number = "" then none
  else
    match r.basic with
    | none => none
    | some b =>
        let enumeration_type := inferEnumType b
        let name := npiNameFrom b enumeration_type
        if name = "" then none
        else some
          { id := npi_number
            name := name
            specialty := orDefault (npiSpecialty r.taxonomies) "Not specified"
            location := orDefault (npiLocation r.addresses) "Location not available"
            phone := npiPhone r.addresses
            email := npiEmail r.endpoints
            rating := 0
            insurance := []
            npi_number := npi_number
            enumeration_type := enumeration_type }

/-- transform_npi_result, main.py lines 579-665 (the older module-level
version): the enumeration type is taken raw with default "" and never
inferred, and no phone or email keys are produced. -/
def transform_npi_result_main (r : NpiRecord) : Option ProviderMain :=
  let npi_number := r.number.getD ""
  if npi_number = "" then none
  else
    match r.basic with
    | none => none
    | some b =>
        let enumeration_type := b.enumeration_type.getD ""
        let name := npiNameFrom b enumeration_type
        if name = "" then none
        else some
          { id := npi_number
            name := name
            specialty := orDefault (npiSpecialty r.taxonomies) "Not specified"
            location := orDefault (npiLocation r.addresses) "Location not available"
            rating := 0
            insurance := []
            npi_number := npi_number
            enumeration_type := enumeration_type }

/-- The identifying number the source works with:
`str(npi_result.get("number", ""))`. -/
def npiNumberOf (r : NpiRecord) : String := r.number.getD ""

/-- The name the controller transform derives for a record ("" when the basic
block is absent). -/
def derivedName (r : NpiRecord) : String :=
  match r.basic with
  | none => ""
  | some b => npiNameFrom b (inferEnumType b)

/- ------------------------------------------------------------------ -/
/- Directory rows and the affiliated-provider search                  -/
/- (QueryController.py lines 24-81, identical block in main.py)       -/
/- ------------------------------------------------------------------ -/

/-- A row of the Providers table as the source reads it (`provider.get`). -/
structure ProvRow where
  provider_id : Option String := none
  first_name : Option String := none
  last_name : Option String := none
  city : Option String := none
  state : Option String := none
  taxonomy : Option String := none
  insurance : Option String := none
  email : Option String := none
  provider_type : Option String := none
deriving DecidableEq, Repr

/-- The dict built per affiliated provider (QueryController.py lines 63-76). -/
structure AffProvider where
  id : String
  name : String
  specialty : String
  location : String
  rating : Nat
  insurance : List String
  npi_number : String
  enumeration_type : String
  is_affiliated : Bool
  email : String
deriving DecidableEq, Repr

/-- Python `f"{first} {last}".strip() if first or last else default`. -/
def dirDisplayName (first last default : String) : String :=
  if first ≠ "" ∨ last ≠ "" then pyStrip (first ++ " " ++ last) else default

/-- QueryController.py lines 49-76: map one Providers row to the canonical
provider dict (is_affiliated is baked in as true). -/
def affiliatedOfRow (pr : ProvRow) : AffProvider :=
  { id := pr.provider_id.getD ""
    name := dirDisplayName (pr.first_name.getD "") (pr.last_name.getD "") "Unknown Provider"
    specialty := orDefault (pr.taxonomy.getD "") "Not specified"
    location := orDefault (pyStrip (joinTruthy ", " [pr.city.getD "", pr.state.getD ""]))
      "Location not available"
    rating := 0
    insurance := if pr.insurance.getD "" ≠ "" then [pr.insurance.getD ""] else []
    npi_number := ""
    enumeration_type := if pr.provider_type = some "individual" then "NPI-1" else "NPI-2"
    is_affiliated := true
    email := pr.email.getD "" }

/-- Outcome of the Directory Store query issued by
search_affiliated_providers: either the filtered rows or a raised error. -/
inductive DirOutcome where
  | ok (rows : List ProvRow)
  | failure
deriving DecidableEq, Repr

/-- search_affiliated_providers (QueryController.py lines 24-81): any store
exception degrades to an empty list; otherwise each returned row is mapped. -/
def search_affiliated_providers : DirOutcome → List AffProvider
  | .failure => []
  | .ok rows => rows.map affiliatedOfRow

/- ------------------------------------------------------------------ -/
/- Search aggregator (QueryController.py lines 181-305,               -/
/- identical block in main.py lines 425-576)                          -/
/- ------------------------------------------------------------------ -/

/-- The optional query parameters of GET /api/providers/search.  `limit`
arrives as an int (FastAPI enforces 1 <= limit <= 200, default 10). -/
structure SearchParams where
  number : Option String := none
  enumeration_type : Option String := none
  taxonomy_description : Option String := none
  first_name : Option String := none
  last_name : Option String := none
  organization_name : Option String := none
  city : Option String := none
  state : Option String := none
  postal_code : Option String := none
  country_code : Option String := none
  limit : Nat := 10
deriving DecidableEq, Repr

/-- How many of the ten filter parameters are truthy, i.e. how many non-limit
keys the `params` dict receives (lines 199-219). -/
def SearchParams.activeFilterCount (p : SearchParams) : Nat :=
  ([p.number, p.enumeration_type, p.taxonomy_description, p.first_name,
    p.last_name, p.organization_name, p.city, p.state, p.postal_code,
    p.country_code].filter (fun o => o.getD "" ≠ "")).length

/-- Size of the `params` dict: truthy filters plus the `limit` key (added
when `limit` is truthy). -/
def SearchParams.paramsCount (p : SearchParams) : Nat :=
  p.activeFilterCount + (if p.limit ≠ 0 then 1 else 0)

/-- The literal short-circuit test of line 223:
`not params or (len(params) == 1 and "limit" in params)`. -/
def SearchParams.shortCircuit (p : SearchParams) : Prop :=
  p.paramsCount = 0 ∨ (p.paramsCount = 1 ∧ p.limit ≠ 0)

instance (p : SearchParams) : Decidable p.shortCircuit := by
  unfold SearchParams.shortCircuit; infer_instance

/-- Parsed body of a 2xx registry response.  `results = none` models a
missing `results` key or a non-list value (the `isinstance` guard). -/
structure RegistryData where
  result_count : Nat := 0
  results : Option (List NpiRecord) := none
deriving DecidableEq, Repr

/-- Outcome of the registry HTTP call: parsed data, a non-2xx status raised
by raise_for_status (httpx.HTTPStatusError), or a network-level failure
(httpx.RequestError). -/
inductive RegistryOutcome where
  | ok (data : RegistryData)
  | httpStatusError (code : Nat)
  | requestError (msg : String)
deriving DecidableEq, Repr

/-- One entry of the combined results list: either an affiliated dict (built
with is_affiliated = true) or a transformed registry dict on which line 256
sets is_affiliated = false. -/
inductive SearchResult where
  | aff (a : AffProvider)
  | npi (p : ProviderQC)
deriving DecidableEq, Repr

/-- The is_affiliated flag carried by a combined-results entry. -/
def SearchResult.is_affiliated : SearchResult → Bool
  | .aff a => a.is_affiliated
  | .npi _ => false

/-- Body of a JSON search response (error = none means the key is absent). -/
structure SearchOk where
  result_count : Nat
  results : List SearchResult
  affiliated_count : Nat
  npi_count : Nat
  api_result_count : Nat
  error : Option String
deriving DecidableEq, Repr

/-- A search response: the bare `{"result_count": 0, "results": []}` of the
short-circuit, a 200 body, or a raised HTTPException with a status code and
detail string. -/
inductive SearchResponse where
  | empty
  | ok (body : SearchOk)
  | err (code : Nat) (detail : String)
deriving DecidableEq, Repr

/-- A search run together with which backing sources were contacted. -/
structure SearchCall where
  response : SearchResponse
  directory_called : Bool
  registry_called : Bool
deriving DecidableEq, Repr

/-- The non-null transformed registry results (lines 252-257). -/
def npiResultsOf (data : RegistryData) : List ProviderQC :=
  (data.results.getD []).filterMap transform_npi_result

/-- search_providers (QueryController.py lines 181-305).  `dir` and `reg`
are the outcomes of the two external calls the handler would make; the
returned flags record whether each source was contacted at all. -/
def search_providers (p : SearchParams) (dir : DirOutcome) (reg : RegistryOutcome) :
    SearchCall :=
  if p.shortCircuit then
    { response := .empty, directory_called := false, registry_called := false }
  else
    let affiliated := search_affiliated_providers dir
    match reg with
    | .ok data =>
        let npi := (npiResultsOf data).map SearchResult.npi
        let allResults := affiliated.map SearchResult.aff ++ npi
        let final := if p.limit ≠ 0 ∧ allResults.length > p.limit
          then allResults.take p.limit else allResults
        { response := .ok
            { result_count := final.length
              results := final
              affiliated_count := affiliated.length
              npi_count := npi.length
              api_result_count := data.result_count
              error := none }
          directory_called := true
          registry_called := true }
    | .httpStatusError code =>
        if affiliated.length ≠ 0 then
          { response := .ok
              { result_count := affiliated.length
                results := (if p.limit ≠ 0 then affiliated.take p.limit else affiliated).map
                  SearchResult.aff
                affiliated_count := affiliated.length
                npi_count := 0
                api_result_count := 0
                error := some ("NPI Registry API error: " ++ toString code) }
            directory_called := true
            registry_called := true }
        else
          { response := .err 502 ("NPI Registry API error: " ++ toString code)
            directory_called := true
            registry_called := true }
    | .requestError msg =>
        if affiliated.length ≠ 0 then
          { response := .ok
              { result_count := affiliated.length
                results := (if p.limit ≠ 0 then affiliated.take p.limit else affiliated).map
                  SearchResult.aff
                affiliated_count := affiliated.length
                npi_count := 0
                api_result_count := 0
                error := some ("Failed to connect to NPI Registry API: " ++ msg) }
            directory_called := true
            registry_called := true }
        else
          { response := .err 503 ("Failed to connect to NPI Registry API: " ++ msg)
            directory_called := true
            registry_called := true }

/- ------------------------------------------------------------------ -/
/- Favorites manager (main.py lines 812-968)                          -/
/- ------------------------------------------------------------------ -/

/-- A row of the FavProviders table. -/
structure FavRow where
  favorite_id : Option String := none
  patient_id : Option String := none
  provider_id : Option String := none
  provider_npi : Option Nat := none
deriving DecidableEq, Repr

/-- Outcome of POST /api/favorites (detail strings omitted). -/
inductive AddFavOutcome where
  | forbidden
  | conflict
  | ok (provider_id : String)
deriving DecidableEq, Repr

/-- add_favorite (main.py lines 812-859): role-gate to patients, duplicate
check and insert are both keyed on the provider_id column only (the inserted
dict has no provider_npi key regardless of the identifier's shape). -/
def add_favorite (role : Option String) (uid pid : String) (tbl : List FavRow) :
    AddFavOutcome × List FavRow :=
  let user_role := role.getD "patient"
  if user_role ≠ "patient" then (.forbidden, tbl)
  else if (tbl.filter (fun r => decide (r.patient_id = some uid ∧ r.provider_id = some pid))).length ≠ 0 then
    (.conflict, tbl)
  else
    (.ok pid, tbl ++ [{ patient_id := some uid, provider_id := some pid }])

/-- Outcome of DELETE /api/favorites: the handler ignores the delete result
and always answers with the success payload. -/
inductive RemoveFavOutcome where
  | ok (provider_id : String)
deriving DecidableEq, Repr

/-- remove_favorite (main.py lines 862-881): delete rows matching
(patient_id, provider_id); no role gate and no existence check. -/
def remove_favorite (uid pid : String) (tbl : List FavRow) :
    RemoveFavOutcome × List FavRow :=
  (.ok pid, tbl.filter (fun r => !(decide (r.patient_id = some uid ∧ r.provider_id = some pid))))

/- ------------------------------------------------------------------ -/
/- Appointment requests                                               -/
/- (RequestController.py lines 24-352, main.py lines 971-1274)        -/
/- ------------------------------------------------------------------ -/

/-- A row of the Requests table. -/
structure ReqRow where
  appointment_id : Option String := none
  patient_id : Option String := none
  provider_id : Option String := none
  message : Option String := none
  date : Option String := none
  time : Option String := none
  status : Option String := none
  response : Option String := none
  created_at : Option String := none
  npi_num : Option Int := none
deriving DecidableEq, Repr

/-- Pydantic CreateRequest body. -/
structure CreatePayload where
  provider_id : String
  message : String
  date : Option String := none
  time : Option String := none
  npi_num : Option Int := none
deriving DecidableEq, Repr

/-- Outcome of POST /api/requests (detail strings omitted). -/
inductive CreateOutcome where
  | forbidden
  | providerNotFound
  | ok (created : ReqRow) (table : List ReqRow)
deriving DecidableEq, Repr

/-- create_request (RequestController.py lines 40-94; main.py lines 971-1034
is the same logic): patients only, the provider must exist, and the insert
forces status to pending. -/
def create_request (role : Option String) (uid : String) (rd : CreatePayload)
    (provTbl : List ProvRow) (reqTbl : List ReqRow) : CreateOutcome :=
  let user_role := role.getD "patient"
  if user_role ≠ "patient" then .forbidden
  else if (provTbl.filter (fun pr => decide (pr.provider_id = some rd.provider_id))).length = 0 then
    .providerNotFound
  else
    let row : ReqRow :=
      { patient_id := some uid
        provider_id := some rd.provider_id
        message := some rd.message
        status := some "pending"
        date := if rd.date.getD "" ≠ "" then rd.date else none
        time := if rd.time.getD "" ≠ "" then rd.time else none
        npi_num := rd.npi_num }
    .ok row (reqTbl ++ [row])

/-- A row of the Patients table (the fields get_requests reads). -/
structure PatRow where
  patient_id : Option String := none
  first_name : Option String := none
  last_name : Option String := none
deriving DecidableEq, Repr

/-- One entry of the list returned by GET /api/requests (main.py lines
1112-1124). -/
structure ReqOut where
  id : String
  providerName : String
  specialty : String
  requestedDate : String
  requestedTime : String
  createdAt : String
  status : String
  message : String
  response : String
  provider_id : String
  patient_id : String
deriving DecidableEq, Repr

/-- providers_map lookup (main.py lines 1065-1076 and 1095): rows matching
the request's provider id, last one winning as in the dict build; a falsy id
or no matching row yields the sentinel pair. -/
def lookupProvInfo (provTbl : List ProvRow) (pid : Option String) : String × String :=
  if pid.getD "" = "" then ("Unknown Provider", "Not specified")
  else
    match (provTbl.filter (fun pr => decide (pr.provider_id = pid))).getLast? with
    | some pr =>
        (dirDisplayName (pr.first_name.getD "") (pr.last_name.getD "") "Unknown Provider",
         orDefault (pr.taxonomy.getD "") "Not specified")
    | none => ("Unknown Provider", "Not specified")

/-- patients_map lookup (main.py lines 1079-1100). -/
def lookupPatName (patTbl : List PatRow) (pid : Option String) : String :=
  if pid.getD "" = "" then "Unknown Patient"
  else
    match (patTbl.filter (fun pa => decide (pa.patient_id = pid))).getLast? with
    | some pa => dirDisplayName (pa.first_name.getD "") (pa.last_name.getD "") "Unknown Patient"
    | none => "Unknown Patient"

/-- main.py lines 1093-1124: transform one stored request row into the
response entry, with the counterpart display name chosen by role. -/
def mkReqOut (user_role : String) (provTbl : List ProvRow) (patTbl : List PatRow)
    (req : ReqRow) : ReqOut :=
  let pinfo := lookupProvInfo provTbl req.provider_id
  { id := req.appointment_id.getD ""
    providerName := if user_role = "provider" then lookupPatName patTbl req.patient_id else pinfo.1
    specialty := pinfo.2
    requestedDate := req.date.getD ""
    requestedTime := req.time.getD ""
    createdAt := req.created_at.getD ""
    status := req.status.getD "pending"
    message := req.message.getD ""
    response := req.response.getD ""
    provider_id := req.provider_id.getD ""
    patient_id := req.patient_id.getD "" }

/-- get_requests (main.py lines 1037-1132): patients see rows keyed by their
id as patient_id, providers rows keyed by their id as provider_id, any other
role an empty list. -/
def get_requests (role : Option String) (uid : String) (reqTbl : List ReqRow)
    (provTbl : List ProvRow) (patTbl : List PatRow) : List ReqOut :=
  let user_role := role.getD "patient"
  if user_role = "patient" then
    (reqTbl.filter (fun r => decide (r.patient_id = some uid))).map
      (mkReqOut user_role provTbl patTbl)
  else if user_role = "provider" then
    (reqTbl.filter (fun r => decide (r.provider_id = some uid))).map
      (mkReqOut user_role provTbl patTbl)
  else []

/-- Pydantic UpdateRequest body. -/
structure UpdatePayload where
  date : Option String := none
  time : Option String := none
  message : Option String := none
  status : Option String := none
  response : Option String := none
deriving DecidableEq, Repr

/-- The update_data dict: a field is `some v` exactly when the key was set. -/
structure UpdateData where
  date : Option String := none
  time : Option String := none
  message : Option String := none
  status : Option String := none
  response : Option String := none
deriving DecidableEq, Repr

/-- The update_data dict is empty. -/
def UpdateData.isEmpty (ud : UpdateData) : Prop :=
  ud.date = none ∧ ud.time = none ∧ ud.message = none ∧ ud.status = none ∧ ud.response = none

instance (ud : UpdateData) : Decidable ud.isEmpty := by
  unfold UpdateData.isEmpty; infer_instance

/-- Time normalization, RequestController.py lines 257-263: pad a bare HH:MM
with seconds, rebuilt from the two split parts. -/
def normalizeTimeCtrl (tv : String) : String :=
  if tv ≠ "" ∧ pyContains tv ":" then
    match pySplit ':' tv with
    | [a, b] => a ++ ":" ++ b ++ ":00"
    | _ => tv
  else tv

/-- Time normalization, main.py lines 1173-1183: pad by appending ":00" when
the split has exactly two parts. -/
def normalizeTimeMain (tv : String) : String :=
  if tv ≠ "" ∧ pyContains tv ":" then
    (if (pySplit ':' tv).length = 2 then tv ++ ":00" else tv)
  else tv

/-- Apply an update dict to a stored row: present keys overwrite. -/
def applyUpdate (ud : UpdateData) (r : ReqRow) : ReqRow :=
  { r with
    date := match ud.date with | some d => some d | none => r.date
    time := match ud.time with | some t => some t | none => r.time
    message := match ud.message with | some m => some m | none => r.message
    status := match ud.status with | some s => some s | none => r.status
    response := match ud.response with | some v => some v | none => r.response }

/-- Outcome of PUT /api/requests (detail strings omitted; `ok` carries
result.data[0] and the table afterwards). -/
inductive UpdateOutcome where
  | notFound
  | forbidden
  | badRequest
  | ok (updated : ReqRow) (table : List ReqRow)
deriving DecidableEq, Repr

/-- update_request, RequestController.py lines 219-312.  The patient branch
sets date, normalized time and message when supplied, rejects any supplied
status with 403, and force-resets status to pending when any of date, time
or message was placed in update_data; it never touches the response column.
The provider branch validates and sets status and sets response. -/
def update_request_ctrl (role : Option String) (uid rid : String)
    (pd : UpdatePayload) (tbl : List ReqRow) : UpdateOutcome :=
  match tbl.filter (fun r => decide (r.appointment_id = some rid)) with
  | [] => .notFound
  | req :: _ =>
      let user_role := role.getD "patient"
      let is_patient := user_role = "patient" ∧ req.patient_id = some uid
      let is_provider := user_role = "provider" ∧ req.provider_id = some uid
      if ¬ is_patient ∧ ¬ is_provider then .forbidden
      else if is_patient then
        if pd.status.isSome then .forbidden
        else
          let ud : UpdateData :=
            { date := pd.date
              time := pd.time.map normalizeTimeCtrl
              message := pd.message
              status :=
                if pd.date.isSome ∨ pd.time.isSome ∨ pd.message.isSome
                then some "pending" else none }
          if ud.isEmpty then .badRequest
          else .ok (applyUpdate ud req)
            (tbl.map (fun r => if r.appointment_id = some rid then applyUpdate ud r else r))
      else
        if pd.status.isSome ∧
            ¬ (pd.status = some "pending" ∨ pd.status = some "approved" ∨ pd.status = some "rejected")
        then .badRequest
        else
          let ud : UpdateData := { status := pd.status, response := pd.response }
          if ud.isEmpty then .badRequest
          else .ok (applyUpdate ud req)
            (tbl.map (fun r => if r.appointment_id = some rid then applyUpdate ud r else r))

/-- update_request, main.py lines 1135-1231: same shape, but the patient
branch performs no status reset at all (and, like the controller, never
touches the response column). -/
def update_request_main (role : Option String) (uid rid : String)
    (pd : UpdatePayload) (tbl : List ReqRow) : UpdateOutcome :=
  match tbl.filter (fun r => decide (r.appointment_id = some rid)) with
  | [] => .notFound
  | req :: _ =>
      let user_role := role.getD "patient"
      let is_patient := user_role = "patient" ∧ req.patient_id = some uid
      let is_provider := user_role = "provider" ∧ req.provider_id = some uid
      if ¬ is_patient ∧ ¬ is_provider then .forbidden
      else if is_patient then
        if pd.status.isSome then .forbidden
        else
          let ud : UpdateData :=
            { date := pd.date
              time := pd.time.map normalizeTimeMain
              message := pd.message }
          if ud.isEmpty then .badRequest
          else .ok (applyUpdate ud req)
            (tbl.map (fun r => if r.appointment_id = some rid then applyUpdate ud r else r))
      else
        if pd.status.isSome ∧
            ¬ (pd.status = some "pending" ∨ pd.status = some "approved" ∨ pd.status = some "rejected")
        then .badRequest
        else
          let ud : UpdateData := { status := pd.status, response := pd.response }
          if ud.isEmpty then .badRequest
          else .ok (applyUpdate ud req)
            (tbl.map (fun r => if r.appointment_id = some rid then applyUpdate ud r else r))

/- ------------------------------------------------------------------ -/
/- Concrete fixtures used to evaluate the handlers on explicit inputs -/
/- ------------------------------------------------------------------ -/

/-- A stored request already approved by its provider, with a provider
response on file. -/
def approvedRow : ReqRow :=
  { appointment_id := some "appt-1"
    patient_id := some "patient-123"
    provider_id := some "provider-456"
    message := some "Initial message"
    status := some "approved"
    response := some "See you soon" }

/-- A patient edit supplying only a changed message. -/
def patientEdit : UpdatePayload := { message := some "Updated message" }

/-- approvedRow after the patient edit, as the controller stores it: the
status is reset but the response column is untouched. -/
def editedRowCtrl : ReqRow :=
  { approvedRow with message := some "Updated message", status := some "pending" }

/-- approvedRow after the patient edit, as main.py stores it: neither the
status nor the response column is touched. -/
def editedRowMain : ReqRow :=
  { approvedRow with message := some "Updated message" }

/-- A registry record whose single taxonomy entry is flagged primary but has
an empty description. -/
def emptyDescRecord : NpiRecord :=
  { number := some "1234567890"
    basic := some { first_name := some "Sam", last_name := some "Taylor" }
    taxonomies := [{ primary := true, desc := some "" }] }

/-- The provider the controller transform produces for emptyDescRecord. -/
def emptyDescProvider : ProviderQC :=
  { id := "1234567890"
    name := "Sam Taylor"
    specialty := "Not specified"
    location := "Location not available"
    phone := ""
    email := ""
    rating := 0
    insurance := []
    npi_number := "1234567890"
    enumeration_type := "NPI-1" }

/-- A registry record whose basic block holds only a credential: the
controller transform infers NPI-1 and derives the name ", MD"; the main.py
transform derives no name at all. -/
def credOnlyRecord : NpiRecord :=
  { number := some "1234567890"
    basic := some { credential := some "MD" } }

/-- An individual record with an explicit enumeration type. -/
def indivRecord : NpiRecord :=
  { number := some "42"
    basic := some { enumeration_type := some "NPI-1", first_name := some "Sam" } }

/-- The provider main.py's transform produces for indivRecord. -/
def indivProviderMain : ProviderMain :=
  { id := "42"
    name := "Sam"
    specialty := "Not specified"
    location := "Location not available"
    rating := 0
    insurance := []
    npi_number := "42"
    enumeration_type := "NPI-1" }

/-- Search parameters with one real filter. -/
def wParams : SearchParams := { city := some "Boston" }

/-- One affiliated directory row. -/
def wDirRow : ProvRow :=
  { provider_id := some "prov-1"
    first_name := some "Jordan"
    last_name := some "Lee"
    city := some "Boston"
    state := some "MA"
    taxonomy := some "Dermatology" }

/-- A small successful registry payload. -/
def wData : RegistryData :=
  { result_count := 1, results := some [indivRecord] }

/- ------------------------------------------------------------------ -/
/- Helper lemmas                                                      -/
/- ------------------------------------------------------------------ -/

/-- The literal short-circuit test of the handler is the absence of any
truthy filter parameter. -/
theorem shortCircuit_iff_no_filter (p : SearchParams) :
    p.shortCircuit ↔ p.activeFilterCount = 0 := by
  unfold SearchParams.shortCircuit SearchParams.paramsCount
  split <;> omega

/-- A string with a nonempty prefix is nonempty. -/
theorem append_ne_empty_of_left (a b : String) (ha : a.length ≠ 0) : a ++ b ≠ "" := by
  intro hc
  have h1 := congrArg String.length hc
  rw [String.length_append] at h1
  rw [String.length_empty] at h1
  omega

/-- Every provider produced by the affiliated search carries the
is_affiliated flag. -/
theorem affiliated_flag_true (dir : DirOutcome) (a : AffProvider)
    (h : a ∈ search_affiliated_providers dir) : a.is_affiliated = true := by
  cases dir with
  | failure => simp [search_affiliated_providers] at h
  | ok rows =>
      simp only [search_affiliated_providers, List.mem_map] at h
      obtain ⟨r, _, rfl⟩ := h
      rfl

/-- When the record supplies a non-empty enumeration type, the controller's
inference returns it unchanged. -/
theorem inferEnumType_of_ne (b : Basic) (h : b.enumeration_type.getD "" ≠ "") :
    inferEnumType b = b.enumeration_type.getD "" := by
  unfold inferEnumType
  cases he : b.enumeration_type with
  | none => rw [he] at h; simp at h
  | some s =>
      rw [he] at h
      simp only [Option.getD_some] at h
      simp only [Option.getD_some]
      rw [if_neg h]

/-- Whenever the raw (main.py) enumeration type derives a non-empty name,
the inferred (controller) enumeration type derives the same name. -/
theorem npiNameFrom_infer_eq (b : Basic)
    (h : npiNameFrom b (b.enumeration_type.getD "") ≠ "") :
    npiNameFrom b (inferEnumType b) = npiNameFrom b (b.enumeration_type.getD "") := by
  by_cases h0 : b.enumeration_type.getD "" = ""
  · rw [h0] at h ⊢
    by_cases hfl : b.first_name.isSome = true ∨ b.last_name.isSome = true
    · unfold npiNameFrom
      rw [if_pos (Or.inr hfl), if_pos (Or.inr hfl)]
    · push_neg at hfl
      obtain ⟨hf, hl⟩ := hfl
      by_cases ho : b.organization_name.isSome = true
      · have hinf : inferEnumType b = "NPI-2" := by
          unfold inferEnumType
          cases he : b.enumeration_type with
          | none => simp [ho]
          | some s =>
              rw [he] at h0
              simp only [Option.getD_some] at h0
              simp [h0, ho]
        unfold npiNameFrom
        rw [hinf]
        have nc1 : ¬(("NPI-2" : String) = "NPI-1" ∨ b.first_name.isSome = true ∨
            b.last_name.isSome = true) := by
          rintro (hx | hx | hx)
          · exact absurd hx (by decide)
          · exact hf hx
          · exact hl hx
        have nc2 : ¬(("" : String) = "NPI-1" ∨ b.first_name.isSome = true ∨
            b.last_name.isSome = true) := by
          rintro (hx | hx | hx)
          · exact absurd hx (by decide)
          · exact hf hx
          · exact hl hx
        rw [if_neg nc1, if_neg nc2]
        rw [if_pos (Or.inl rfl), if_pos (Or.inr ho)]
      · exfalso
        apply h
        unfold npiNameFrom
        have nc2 : ¬(("" : String) = "NPI-1" ∨ b.first_name.isSome = true ∨
            b.last_name.isSome = true) := by
          rintro (hx | hx | hx)
          · exact absurd hx (by decide)
          · exact hf hx
          · exact hl hx
        have nc3 : ¬(("" : String) = "NPI-2" ∨ b.organization_name.isSome = true) := by
          rintro (hx | hx)
          · exact absurd hx (by decide)
          · exact ho hx
        rw [if_neg nc2, if_neg nc3]
  · rw [inferEnumType_of_ne b h0]

/- ------------------------------------------------------------------ -/
/- Claim theorems                                                     -/
/- ------------------------------------------------------------------ -/

/-- C7: when the only supplied parameter is limit (no truthy filter), the
aggregator answers with the bare empty result object and contacts neither
the Directory Store nor the Registry Client. -/
theorem search_limit_only_short_circuits (p : SearchParams) (dir : DirOutcome)
    (reg : RegistryOutcome) (h : p.activeFilterCount = 0) :
    search_providers p dir reg =
      { response := .empty, directory_called := false, registry_called := false } := by
  unfold search_providers
  rw [if_pos ((shortCircuit_iff_no_filter p).mpr h)]

/-- Witness for C7 at the all-defaults parameter set. -/
theorem search_limit_only_short_circuits_witness :
    SearchParams.activeFilterCount {} = 0 ∧
    search_providers {} DirOutcome.failure (.requestError "boom") =
      { response := .empty, directory_called := false, registry_called := false } :=
  ⟨by decide, search_limit_only_short_circuits {} DirOutcome.failure (.requestError "boom")
    (by decide)⟩

/-- C8: removing a favorite is idempotent — both calls answer with the
success payload and the second deletion leaves the table exactly as the
first left it. -/
theorem remove_favorite_idempotent (uid pid : String) (tbl : List FavRow) :
    (remove_favorite uid pid tbl).1 = .ok pid ∧
    (remove_favorite uid pid (remove_favorite uid pid tbl).2).1 = .ok pid ∧
    (remove_favorite uid pid (remove_favorite uid pid tbl).2).2 =
      (remove_favorite uid pid tbl).2 := by
  refine ⟨rfl, rfl, ?_⟩
  unfold remove_favorite
  simp only [List.filter_filter, Bool.and_self]

/-- C2: favoriting the 10-digit numeric identifier "1234567890" stores a row
keyed by provider_id (the raw string) with no provider_npi key at all — the
handler never discriminates registry identifiers. -/
theorem add_favorite_stores_npi_under_provider_id :
    add_favorite (some "patient") "patient-123" "1234567890" [] =
      (.ok "1234567890",
        [{ patient_id := some "patient-123", provider_id := some "1234567890" }]) ∧
    (add_favorite (some "patient") "patient-123" "1234567890" []).2.map FavRow.provider_npi
      = [none] ∧
    "1234567890".length = 10 ∧ "1234567890".toList.all Char.isDigit = true := by
  refine ⟨by decide, by decide, by decide, by decide⟩

/-- C1: a patient edit that changes the message of an approved request does
not clear the stored response.  The controller version resets status to
pending but keeps the provider response; the main.py version keeps both the
approved status and the response. -/
theorem patient_edit_does_not_clear_response :
    update_request_ctrl (some "patient") "patient-123" "appt-1" patientEdit [approvedRow] =
      .ok editedRowCtrl [editedRowCtrl] ∧
    update_request_main (some "patient") "patient-123" "appt-1" patientEdit [approvedRow] =
      .ok editedRowMain [editedRowMain] ∧
    editedRowCtrl.status = some "pending" ∧
    editedRowCtrl.response = some "See you soon" ∧
    editedRowMain.status = some "approved" ∧
    editedRowMain.response = some "See you soon" := by
  refine ⟨by decide, by decide, by decide, by decide, by decide, by decide⟩

/-- C10: a token with no role claim is treated as a patient by the three
role-gated handlers — request creation and favoriting behave exactly as for
an explicit patient (never taking the only-patients 403 branch), and request
listing selects the rows whose patient_id is the caller's id. -/
theorem missing_role_defaults_to_patient :
    (∀ (uid : String) (rd : CreatePayload) (provTbl : List ProvRow) (reqTbl : List ReqRow),
      create_request none uid rd provTbl reqTbl =
        create_request (some "patient") uid rd provTbl reqTbl ∧
      create_request none uid rd provTbl reqTbl ≠ .forbidden) ∧
    (∀ (uid pid : String) (tbl : List FavRow),
      add_favorite none uid pid tbl = add_favorite (some "patient") uid pid tbl ∧
      (add_favorite none uid pid tbl).1 ≠ .forbidden) ∧
    (∀ (uid : String) (reqTbl : List ReqRow) (provTbl : List ProvRow) (patTbl : List PatRow),
      get_requests none uid reqTbl provTbl patTbl =
        get_requests (some "patient") uid reqTbl provTbl patTbl ∧
      get_requests none uid reqTbl provTbl patTbl =
        (reqTbl.filter (fun r => decide (r.patient_id = some uid))).map
          (mkReqOut "patient" provTbl patTbl)) := by
  refine ⟨fun uid rd provTbl reqTbl => ⟨rfl, ?_⟩, fun uid pid tbl => ⟨rfl, ?_⟩,
    fun uid reqTbl provTbl patTbl => ⟨rfl, ?_⟩⟩
  · unfold create_request
    simp only [Option.getD]
    rw [if_neg (by simp)]
    split
    · exact fun hc => CreateOutcome.noConfusion hc
    · exact fun hc => CreateOutcome.noConfusion hc
  · unfold add_favorite
    simp only [Option.getD]
    rw [if_neg (by simp)]
    split
    · exact fun hc => AddFavOutcome.noConfusion hc
    · exact fun hc => AddFavOutcome.noConfusion hc
  · unfold get_requests
    simp

/-- C5: the controller normalizer fails soft to none exactly when the record
lacks a (truthy) top-level identifying number, lacks a non-empty basic
block, or derives an empty name; in particular a record with no number key
at all maps to none. -/
theorem transform_none_iff_missing_parts :
    (∀ r : NpiRecord,
      transform_npi_result r = none ↔
        (npiNumberOf r = "" ∨ r.basic = none ∨ derivedName r = "")) ∧
    (∀ r : NpiRecord, r.number = none → transform_npi_result r = none) := by
  constructor
  · intro r
    unfold transform_npi_result npiNumberOf derivedName
    by_cases hn : r.number.getD "" = ""
    · simp [hn]
    · cases hb : r.basic with
      | none => simp [hn, hb]
      | some b =>
          by_cases hname : npiNameFrom b (inferEnumType b) = "" <;>
            simp [hn, hb, hname]
  · intro r h
    unfold transform_npi_result
    simp [h]

/-- Witness for C5 on a record with no number key. -/
theorem transform_none_iff_missing_parts_witness :
    transform_npi_result { basic := some { first_name := some "Sam" } } = none :=
  transform_none_iff_missing_parts.2 { basic := some { first_name := some "Sam" } } rfl

/-- C6 counterexample: emptyDescRecord's only taxonomy entry is flagged
primary with description "", yet the normalizer outputs the sentinel
"Not specified" instead of that (empty) description. -/
theorem specialty_empty_desc_counterexample :
    transform_npi_result emptyDescRecord = some emptyDescProvider ∧
    emptyDescProvider.specialty = "Not specified" ∧
    (emptyDescRecord.taxonomies.find? (fun t => t.primary)).map (fun t => t.desc.getD "")
      = some "" ∧
    ("Not specified" : String) ≠ "" := by
  refine ⟨by decide, by decide, by decide, by decide⟩

/-- C6 amended: specialty is the description of the first entry flagged
primary, else the first entry's description, except that an empty chosen
description also falls back to the sentinel; an absent or empty taxonomy
list yields the sentinel. -/
theorem specialty_selection_rule (r : NpiRecord) (p : ProviderQC)
    (h : transform_npi_result r = some p) :
    p.specialty =
      match r.taxonomies.find? (fun t => t.primary) with
      | some t => if t.desc.getD "" = "" then "Not specified" else t.desc.getD ""
      | none =>
          match r.taxonomies with
          | [] => "Not specified"
          | t0 :: _ => if t0.desc.getD "" = "" then "Not specified" else t0.desc.getD "" := by
  have hsp : p.specialty = orDefault (npiSpecialty r.taxonomies) "Not specified" := by
    unfold transform_npi_result at h
    by_cases hn : r.number.getD "" = ""
    · simp [hn] at h
    · cases hb : r.basic with
      | none => simp [hn, hb] at h
      | some b =>
          by_cases hname : npiNameFrom b (inferEnumType b) = ""
          · simp [hn, hb, hname] at h
          · simp [hn, hb, hname] at h
            rw [← h]
  rw [hsp]
  unfold npiSpecialty orDefault
  cases ht : r.taxonomies with
  | nil => simp
  | cons t0 ts =>
      cases hf : (t0 :: ts).find? (fun t => t.primary) with
      | none =>
          by_cases hd : t0.desc.getD "" = "" <;> simp [hd]
      | some t =>
          by_cases hd : t.desc.getD "" = "" <;> simp [hd]

/-- Witness for C6's amended rule at emptyDescRecord. -/
theorem specialty_selection_rule_witness :
    emptyDescProvider.specialty =
      match emptyDescRecord.taxonomies.find? (fun t => t.primary) with
      | some t => if t.desc.getD "" = "" then "Not specified" else t.desc.getD ""
      | none =>
          match emptyDescRecord.taxonomies with
          | [] => "Not specified"
          | t0 :: _ => if t0.desc.getD "" = "" then "Not specified" else t0.desc.getD "" :=
  specialty_selection_rule emptyDescRecord emptyDescProvider (by decide)

/-- C3: when the registry call fails on a non-short-circuited search, a
non-empty affiliated list is returned alone (truncated to limit) with
npi_count 0 and a non-empty error string under HTTP 200, while an empty
affiliated list escalates to 502 (non-2xx status) or 503 (network failure). -/
theorem registry_failure_policy (p : SearchParams) (dir : DirOutcome)
    (hactive : p.activeFilterCount ≠ 0) (hlimit : 1 ≤ p.limit) :
    (∀ code : Nat,
      (search_affiliated_providers dir ≠ [] →
        search_providers p dir (.httpStatusError code) =
          { response := .ok
              { result_count := (search_affiliated_providers dir).length
                results := ((search_affiliated_providers dir).take p.limit).map SearchResult.aff
                affiliated_count := (search_affiliated_providers dir).length
                npi_count := 0
                api_result_count := 0
                error := some ("NPI Registry API error: " ++ toString code) }
            directory_called := true
            registry_called := true } ∧
        "NPI Registry API error: " ++ toString code ≠ "") ∧
      (search_affiliated_providers dir = [] →
        search_providers p dir (.httpStatusError code) =
          { response := .err 502 ("NPI Registry API error: " ++ toString code)
            directory_called := true
            registry_called := true })) ∧
    (∀ msg : String,
      (search_affiliated_providers dir ≠ [] →
        search_providers p dir (.requestError msg) =
          { response := .ok
              { result_count := (search_affiliated_providers dir).length
                results := ((search_affiliated_providers dir).take p.limit).map SearchResult.aff
                affiliated_count := (search_affiliated_providers dir).length
                npi_count := 0
                api_result_count := 0
                error := some ("Failed to connect to NPI Registry API: " ++ msg) }
            directory_called := true
            registry_called := true } ∧
        "Failed to connect to NPI Registry API: " ++ msg ≠ "") ∧
      (search_affiliated_providers dir = [] →
        search_providers p dir (.requestError msg) =
          { response := .err 503 ("Failed to connect to NPI Registry API: " ++ msg)
            directory_called := true
            registry_called := true })) := by
  have hsc : ¬ p.shortCircuit := fun hc => hactive ((shortCircuit_iff_no_filter p).mp hc)
  have hl0 : p.limit ≠ 0 := by omega
  refine ⟨fun code => ⟨fun hne => ⟨?_, ?_⟩, fun hemp => ?_⟩,
    fun msg => ⟨fun hne => ⟨?_, ?_⟩, fun hemp => ?_⟩⟩
  · unfold search_providers
    rw [if_neg hsc]
    have hlen : (search_affiliated_providers dir).length ≠ 0 := by
      simpa [List.length_eq_zero] using hne
    simp [hlen, hl0]
  · exact append_ne_empty_of_left _ _ (by decide)
  · unfold search_providers
    rw [if_neg hsc]
    simp [hemp]
  · unfold search_providers
    rw [if_neg hsc]
    have hlen : (search_affiliated_providers dir).length ≠ 0 := by
      simpa [List.length_eq_zero] using hne
    simp [hlen, hl0]
  · exact append_ne_empty_of_left _ _ (by decide)
  · unfold search_providers
    rw [if_neg hsc]
    simp [hemp]

/-- Witness for C3: one affiliated match, registry answering 500. -/
theorem registry_failure_policy_witness :
    SearchParams.activeFilterCount wParams ≠ 0 ∧ 1 ≤ wParams.limit ∧
    (search_providers wParams (DirOutcome.ok [wDirRow]) (.httpStatusError 500) =
      { response := .ok
          { result_count := (search_affiliated_providers (DirOutcome.ok [wDirRow])).length
            results := ((search_affiliated_providers (DirOutcome.ok [wDirRow])).take
              wParams.limit).map SearchResult.aff
            affiliated_count := (search_affiliated_providers (DirOutcome.ok [wDirRow])).length
            npi_count := 0
            api_result_count := 0
            error := some ("NPI Registry API error: " ++ toString 500) }
        directory_called := true
        registry_called := true } ∧
      "NPI Registry API error: " ++ toString 500 ≠ "") :=
  ⟨by decide, by decide,
    ((registry_failure_policy wParams (DirOutcome.ok [wDirRow]) (by decide) (by decide)).1
      500).1 (by decide)⟩

/-- C4: a successful non-short-circuited search returns the affiliated
results concatenated before the transformed registry results, truncated to
limit; the length is the min of the combined pre-truncation size and limit,
the reported counts are the pre-truncation contribution sizes, and every
entry among the first affiliated_count returned carries is_affiliated. -/
theorem search_success_combination (p : SearchParams) (dir : DirOutcome)
    (data : RegistryData) (hactive : p.activeFilterCount ≠ 0) (hlimit : 1 ≤ p.limit) :
    search_providers p dir (.ok data) =
      { response := .ok
          { result_count := (((search_affiliated_providers dir).map SearchResult.aff ++
              (npiResultsOf data).map SearchResult.npi).take p.limit).length
            results := ((search_affiliated_providers dir).map SearchResult.aff ++
              (npiResultsOf data).map SearchResult.npi).take p.limit
            affiliated_count := (search_affiliated_providers dir).length
            npi_count := (npiResultsOf data).length
            api_result_count := data.result_count
            error := none }
        directory_called := true
        registry_called := true } ∧
    (((search_affiliated_providers dir).map SearchResult.aff ++
        (npiResultsOf data).map SearchResult.npi).take p.limit).length =
      min ((search_affiliated_providers dir).length + (npiResultsOf data).length) p.limit ∧
    (∀ x ∈ (((search_affiliated_providers dir).map SearchResult.aff ++
        (npiResultsOf data).map SearchResult.npi).take p.limit).take
          (search_affiliated_providers dir).length,
      x.is_affiliated = true) := by
  have hsc : ¬ p.shortCircuit := fun hc => hactive ((shortCircuit_iff_no_filter p).mp hc)
  have hl0 : p.limit ≠ 0 := by omega
  refine ⟨?_, ?_, ?_⟩
  · unfold search_providers
    rw [if_neg hsc]
    by_cases hgt : ((search_affiliated_providers dir).map SearchResult.aff ++
        (npiResultsOf data).map SearchResult.npi).length > p.limit
    · have hgt2 : p.limit < (search_affiliated_providers dir).length +
          (npiResultsOf data).length := by simpa using hgt
      simp [hl0, hgt, hgt2, List.length_take]
    · have hle : ((search_affiliated_providers dir).map SearchResult.aff ++
          (npiResultsOf data).map SearchResult.npi).length ≤ p.limit := by omega
      simp [hgt, List.take_of_length_le hle]
  · simp only [List.length_take, List.length_append, List.length_map]
    omega
  · intro x hx
    rw [List.take_take] at hx
    have hminle : min (search_affiliated_providers dir).length p.limit ≤
        ((search_affiliated_providers dir).map SearchResult.aff).length := by
      simp only [List.length_map]
      omega
    rw [List.take_append_of_le_length hminle] at hx
    have hx2 := List.take_subset _ _ hx
    obtain ⟨a, ha, rfl⟩ := List.mem_map.mp hx2
    simpa [SearchResult.is_affiliated] using affiliated_flag_true dir a ha

/-- Witness for C4: one affiliated match and one transformable registry
record. -/
theorem search_success_combination_witness :
    SearchParams.activeFilterCount wParams ≠ 0 ∧ 1 ≤ wParams.limit ∧
    (search_providers wParams (DirOutcome.ok [wDirRow]) (.ok wData) =
      { response := .ok
          { result_count := (((search_affiliated_providers (DirOutcome.ok [wDirRow])).map
              SearchResult.aff ++ (npiResultsOf wData).map SearchResult.npi).take
                wParams.limit).length
            results := ((search_affiliated_providers (DirOutcome.ok [wDirRow])).map
              SearchResult.aff ++ (npiResultsOf wData).map SearchResult.npi).take wParams.limit
            affiliated_count := (search_affiliated_providers (DirOutcome.ok [wDirRow])).length
            npi_count := (npiResultsOf wData).length
            api_result_count := wData.result_count
            error := none }
        directory_called := true
        registry_called := true } ∧
      (((search_affiliated_providers (DirOutcome.ok [wDirRow])).map SearchResult.aff ++
          (npiResultsOf wData).map SearchResult.npi).take wParams.limit).length =
        min ((search_affiliated_providers (DirOutcome.ok [wDirRow])).length +
          (npiResultsOf wData).length) wParams.limit ∧
      (∀ x ∈ (((search_affiliated_providers (DirOutcome.ok [wDirRow])).map SearchResult.aff ++
          (npiResultsOf wData).map SearchResult.npi).take wParams.limit).take
            (search_affiliated_providers (DirOutcome.ok [wDirRow])).length,
        x.is_affiliated = true)) :=
  ⟨by decide, by decide,
    search_success_combination wParams (DirOutcome.ok [wDirRow]) wData (by decide) (by decide)⟩

/-- C9 counterexample: on credOnlyRecord the two transforms do not even
agree on nullness — the controller version infers NPI-1 and derives the name
", MD" while the main.py version derives no name and returns none. -/
theorem transforms_disagree_on_cred_only :
    transform_npi_result_main credOnlyRecord = none ∧
    transform_npi_result credOnlyRecord =
      some { id := "1234567890", name := ", MD", specialty := "Not specified",
             location := "Location not available", phone := "", email := "",
             rating := 0, insurance := [], npi_number := "1234567890",
             enumeration_type := "NPI-1" } := by
  refine ⟨by decide, by decide⟩

/-- C9 amended: the main.py transform refines the controller transform — on
every record where main.py succeeds the controller also succeeds and agrees
on id, name, specialty, location, rating, insurance and npi_number, and on
enumeration_type whenever the record supplied a non-empty one; the converse
fails and the controller additionally emits phone and email. -/
theorem main_transform_refines_controller (r : NpiRecord) (p : ProviderMain)
    (h : transform_npi_result_main r = some p) :
    ∃ q : ProviderQC, transform_npi_result r = some q ∧
      q.id = p.id ∧ q.name = p.name ∧ q.specialty = p.specialty ∧
      q.location = p.location ∧ q.rating = p.rating ∧ q.insurance = p.insurance ∧
      q.npi_number = p.npi_number ∧
      (p.enumeration_type ≠ "" → q.enumeration_type = p.enumeration_type) := by
  unfold transform_npi_result_main at h
  by_cases hn : r.number.getD "" = ""
  · simp [hn] at h
  · cases hb : r.basic with
    | none => rw [hb] at h; simp [hn] at h
    | some b =>
        rw [hb] at h
        by_cases hname0 : npiNameFrom b (b.enumeration_type.getD "") = ""
        · simp [hn, hname0] at h
        · simp only [if_neg hn, if_neg hname0, Option.some.injEq] at h
          subst h
          have hname := npiNameFrom_infer_eq b hname0
          refine ⟨{ id := r.number.getD ""
                    name := npiNameFrom b (inferEnumType b)
                    specialty := orDefault (npiSpecialty r.taxonomies) "Not specified"
                    location := orDefault (npiLocation r.addresses) "Location not available"
                    phone := npiPhone r.addresses
                    email := npiEmail r.endpoints
                    rating := 0
                    insurance := []
                    npi_number := r.number.getD ""
                    enumeration_type := inferEnumType b }, ?_, rfl, hname, rfl, rfl, rfl,
            rfl, rfl, fun het => inferEnumType_of_ne b het⟩
          unfold transform_npi_result
          rw [hb]
          have hname2 : npiNameFrom b (inferEnumType b) ≠ "" := by
            rw [hname]; exact hname0
          simp only [if_neg hn, if_neg hname2]

/-- Witness for C9's amended refinement at indivRecord. -/
theorem main_transform_refines_controller_witness :
    transform_npi_result_main indivRecord = some indivProviderMain ∧
    (∃ q : ProviderQC, transform_npi_result indivRecord = some q ∧
      q.id = indivProviderMain.id ∧ q.name = indivProviderMain.name ∧
      q.specialty = indivProviderMain.specialty ∧
      q.location = indivProviderMain.location ∧ q.rating = indivProviderMain.rating ∧
      q.insurance = indivProviderMain.insurance ∧
      q.npi_number = indivProviderMain.npi_number ∧
      (indivProviderMain.enumeration_type ≠ "" →
        q.enumeration_type = indivProviderMain.enumeration_type)) :=
  ⟨by decide, main_transform_refines_controller indivRecord indivProviderMain (by decide)⟩

end MediData
